import Mathlib

/-!
# Verification of the span_ebus Home Assistant integration core

Shallow embedding of the description-to-entity mapping engine
(`node_mappers.py`), the per-entity value formatter (`sensor.py`), the
synchronization bridge subscriber registry (`span_panel.py`), the circuit-name
readiness wait (`__init__.py`) and the timeout constants (`const.py`),
together with theorems settling the frozen claims about them.

Python dictionaries are modelled as insertion-ordered association lists,
optional dictionary entries as `Option` fields, exceptions as `Except`, and
raw wire values as strings parsed into exact rationals.
-/

namespace SpanEbus

/-! ## Basic enumerations (Home Assistant constants used by the source) -/

/-- Home Assistant platform tags used by `EntitySpec.platform`. -/
inductive Platform
  | sensor
  | binarySensor
  | select
  | switch
  deriving DecidableEq, Repr

/-- Sensor / binary-sensor device classes referenced by the source. -/
inductive DeviceClass
  | power
  | energy
  | battery
  | current
  | voltage
  | energyStorage
  | tamper
  | connectivity
  deriving DecidableEq, Repr

/-- Sensor state classes referenced by the source. -/
inductive StateClass
  | measurement
  | totalIncreasing
  deriving DecidableEq, Repr

/-- Entity categories referenced by the source. -/
inductive EntityCategory
  | diagnostic
  deriving DecidableEq, Repr

/-! ## Schema data model

A Homie property descriptor as consumed by `node_mappers.py`: every access in
the source is `prop_desc.get(key, default)`, so each field is an `Option`. -/

structure PropDesc where
  datatype : Option String := none
  unit : Option String := none
  format : Option String := none
  settable : Option Bool := none
  deriving DecidableEq, Repr

/-- A node descriptor: `node_desc.get("type", "")` and
`node_desc.get("properties", {})`, the latter an insertion-ordered dict. -/
structure NodeDesc where
  type : String := ""
  properties : List (String × PropDesc) := []
  deriving DecidableEq, Repr

/-- A parsed `$description` document: `description.get("nodes", {})`. -/
structure Description where
  nodes : List (String × NodeDesc) := []
  deriving DecidableEq, Repr

/-- The slice of `SpanPanel` that `entities_from_description` consults:
`panel.serial_number` and `panel.get_property_value(node_id, property_id)`. -/
structure Panel where
  serialNumber : String
  getPropertyValue : String → String → Option String

/-! ## EntitySpec (the mapper output unit, from `node_mappers.EntitySpec`) -/

structure EntitySpec where
  platform : Platform
  node_id : String
  property_id : String
  name : String
  device_class : Option DeviceClass := none
  state_class : Option StateClass := none
  native_unit : Option String := none
  entity_category : Option EntityCategory := none
  options : List String := []
  negate : Bool := false
  icon : Option String := none
  settable : Bool := false
  on_values : List String := []
  node_type : String := ""
  device_name : String := ""
  deriving DecidableEq, Repr

/-! ## String helpers (Python semantics, written over `List Char` so that the
kernel can evaluate them on concrete inputs) -/

/-- Python `str.split(sep)` for a one-character separator: split at every
occurrence, keeping empty pieces. -/
def splitOnChar (sep : Char) : List Char → List (List Char)
  | [] => [[]]
  | c :: t =>
      let r := splitOnChar sep t
      if c = sep then [] :: r
      else
        match r with
        | [] => [[c]]
        | h :: t2 => (c :: h) :: t2

/-- Whitespace characters stripped by Python `str.strip()` (ASCII subset). -/
def isWs (c : Char) : Bool :=
  c = ' ' || c = '\t' || c = '\n' || c = '\r' || c = '\x0b' || c = '\x0c'

/-- Python `str.strip()` on a character list. -/
def stripChars (cs : List Char) : List Char :=
  ((cs.dropWhile isWs).reverse.dropWhile isWs).reverse

/-- Python `str.strip()`. -/
def pyStrip (s : String) : String :=
  String.mk (stripChars s.toList)

/-- Python substring test `pat in s` (used as `"upstream" in node_id`). -/
def pyContains (hay pat : List Char) : Bool :=
  match hay with
  | [] => pat.isEmpty
  | _ :: t => pat.isPrefixOf hay || pyContains t pat

/-- `"upstream" in node_id` from `_map_lug_properties`. -/
def containsUpstream (nodeId : String) : Bool :=
  pyContains nodeId.toList "upstream".toList

/-- Python `s[:n]`. -/
def pyTake (n : Nat) (s : String) : String :=
  String.mk (s.toList.take n)

/-- Python `s.rsplit("-", 1)[-1]`: the part after the last hyphen
(the whole string when it has no hyphen). -/
def shortSerialSuffix (s : String) : String :=
  String.mk ((splitOnChar '-' s.toList).getLastD s.toList)

/-- Python `str.title()` on a single token: an alphabetic character is
upper-cased when it follows a non-alphabetic character (or starts the string)
and lower-cased otherwise. -/
def pyTitleAux : Bool → List Char → List Char
  | _, [] => []
  | prevAlpha, c :: t =>
      if c.isAlpha then
        (if prevAlpha then c.toLower else c.toUpper) :: pyTitleAux true t
      else
        c :: pyTitleAux false t

/-- Python `str.title()`. -/
def pyTitle (s : String) : String :=
  String.mk (pyTitleAux false s.toList)

/-! ## Helpers from `node_mappers.py` -/

/-- `_ABBREVIATIONS` lookup table. -/
def abbreviationFor (tok : String) : Option String :=
  if tok = "pv" then some "PV"
  else if tok = "ev" then some "EV"
  else if tok = "soc" then some "SOC"
  else if tok = "soe" then some "SOE"
  else if tok = "pcs" then some "PCS"
  else none

/-- `_humanize`: replace underscores with hyphens, split on hyphens, render
each token through the abbreviation table or `str.title()`, join by spaces. -/
def humanize (propId : String) : String :=
  let parts := splitOnChar '-' (propId.toList.map (fun c => if c = '_' then '-' else c))
  String.intercalate " "
    (parts.map (fun p =>
      let tok := String.mk p
      (abbreviationFor tok).getD (pyTitle tok)))

/-- `_parse_enum_format`: `if not fmt: return []` then
`[v.strip() for v in fmt.split(",") if v.strip()]`. -/
def parseEnumFormat (fmt : String) : List String :=
  if fmt = "" then []
  else
    (splitOnChar ',' fmt.toList).filterMap (fun v =>
      let s := stripChars v
      if s.isEmpty then none else some (String.mk s))

/-! ## Property mappers by node type (`node_mappers.py`)

Each Python mapper is a `for prop_id, prop_desc in properties.items()` loop
appending zero or more specs per property; it is embedded as a per-property
function `…PerProp` flat-mapped over the (insertion-ordered) property list. -/

/-- One iteration of the `_map_core_properties` loop: the `prop_map` table
lookup, with `options` filled from the enum format for the select entry. -/
def mapCorePerProp (nid pid : String) (pd : PropDesc) : List EntitySpec :=
  if pid = "door" then
    [{ platform := .binarySensor, node_id := nid, property_id := pid,
       name := "Door", device_class := some .tamper, on_values := ["OPEN"] }]
  else if pid = "ethernet" then
    [{ platform := .binarySensor, node_id := nid, property_id := pid,
       name := "Ethernet", device_class := some .connectivity,
       entity_category := some .diagnostic }]
  else if pid = "wifi" then
    [{ platform := .binarySensor, node_id := nid, property_id := pid,
       name := "Wi-Fi", device_class := some .connectivity,
       entity_category := some .diagnostic }]
  else if pid = "cellular" then
    [{ platform := .binarySensor, node_id := nid, property_id := pid,
       name := "Cellular", device_class := some .connectivity,
       entity_category := some .diagnostic }]
  else if pid = "software-version" then
    [{ platform := .sensor, node_id := nid, property_id := pid,
       name := "Firmware Version", entity_category := some .diagnostic }]
  else if pid = "hardware-version" then
    [{ platform := .sensor, node_id := nid, property_id := pid,
       name := "Hardware Version", entity_category := some .diagnostic }]
  else if pid = "dominant-power-source" then
    [{ platform := .select, node_id := nid, property_id := pid,
       name := "Dominant Power Source", icon := some "mdi:lightning-bolt",
       settable := true, options := parseEnumFormat (pd.format.getD "") }]
  else if pid = "relay" then
    [{ platform := .binarySensor, node_id := nid, property_id := pid,
       name := "Main Relay", icon := some "mdi:electric-switch",
       on_values := ["CLOSED"] }]
  else if pid = "l1-voltage" then
    [{ platform := .sensor, node_id := nid, property_id := pid,
       name := "L1 Voltage", device_class := some .voltage,
       state_class := some .measurement, native_unit := some "V" }]
  else if pid = "l2-voltage" then
    [{ platform := .sensor, node_id := nid, property_id := pid,
       name := "L2 Voltage", device_class := some .voltage,
       state_class := some .measurement, native_unit := some "V" }]
  else if pid = "breaker-rating" then
    [{ platform := .sensor, node_id := nid, property_id := pid,
       name := "Main Breaker Rating", device_class := some .current,
       native_unit := some "A", entity_category := some .diagnostic }]
  else if pid = "grid-islandable" then
    [{ platform := .binarySensor, node_id := nid, property_id := pid,
       name := "Grid Islandable", entity_category := some .diagnostic }]
  else if pid = "wifi-ssid" then
    [{ platform := .sensor, node_id := nid, property_id := pid,
       name := "Wi-Fi SSID", entity_category := some .diagnostic }]
  else if pid = "vendor-cloud" then
    [{ platform := .sensor, node_id := nid, property_id := pid,
       name := "Cloud Connection", entity_category := some .diagnostic }]
  else if pid = "vendor-name" then
    [{ platform := .sensor, node_id := nid, property_id := pid,
       name := "Vendor", entity_category := some .diagnostic }]
  else if pid = "serial-number" then
    [{ platform := .sensor, node_id := nid, property_id := pid,
       name := "Serial Number", entity_category := some .diagnostic }]
  else if pid = "postal-code" then
    [{ platform := .sensor, node_id := nid, property_id := pid,
       name := "Postal Code", entity_category := some .diagnostic }]
  else if pid = "time-zone" then
    [{ platform := .sensor, node_id := nid, property_id := pid,
       name := "Time Zone", entity_category := some .diagnostic }]
  else []

/-- `_map_core_properties`. -/
def mapCoreProperties (nid : String) (props : List (String × PropDesc)) :
    List EntitySpec :=
  props.flatMap (fun p => mapCorePerProp nid p.1 p.2)

/-- One iteration of the `_map_circuit_properties` loop. -/
def mapCircuitPerProp (nid pid : String) (pd : PropDesc) : List EntitySpec :=
  let settable := pd.settable.getD false
  if pid = "relay" then
    [{ platform := .switch, node_id := nid, property_id := pid,
       name := "Relay", settable := settable, icon := some "mdi:electric-switch" }]
  else if pid = "shed-priority" then
    [{ platform := .select, node_id := nid, property_id := pid,
       name := "Shed Priority", settable := settable,
       options := parseEnumFormat (pd.format.getD ""),
       icon := some "mdi:priority-high" }]
  else if pid = "pcs-priority" then
    [{ platform := .sensor, node_id := nid, property_id := pid,
       name := "PCS Priority", icon := some "mdi:priority-high" }]
  else if pid = "active-power" then
    -- Firmware bug noted in the source: schema declares "kW" but values are
    -- watts; unit is forced to W and the value is negated.
    [{ platform := .sensor, node_id := nid, property_id := pid,
       name := "Power", device_class := some .power,
       state_class := some .measurement, native_unit := some "W",
       negate := true }]
  else if pid = "current" then
    [{ platform := .sensor, node_id := nid, property_id := pid,
       name := "Current", device_class := some .current,
       state_class := some .measurement, native_unit := some "A" }]
  else if pid = "imported-energy" ∨ pid = "exported-energy" then
    [{ platform := .sensor, node_id := nid, property_id := pid,
       name := if pyContains pid.toList "exported".toList then "Energy"
               else "Energy Returned",
       device_class := some .energy, state_class := some .totalIncreasing,
       native_unit := some "Wh" }]
  else if pid = "breaker-rating" then
    [{ platform := .sensor, node_id := nid, property_id := pid,
       name := "Breaker Rating", device_class := some .current,
       native_unit := some "A", entity_category := some .diagnostic }]
  else if pid = "space" then
    [{ platform := .sensor, node_id := nid, property_id := pid,
       name := "Space", entity_category := some .diagnostic }]
  else if pid = "dipole" ∨ pid = "pcs-managed" ∨ pid = "sheddable" ∨
      pid = "never-backup" ∨ pid = "always-on" then
    [{ platform := .binarySensor, node_id := nid, property_id := pid,
       name := humanize pid, entity_category := some .diagnostic }]
  else if pid = "relay-requester" then
    [{ platform := .sensor, node_id := nid, property_id := pid,
       name := "Relay Requester", entity_category := some .diagnostic }]
  else []

/-- `_map_circuit_properties`. -/
def mapCircuitProperties (nid : String) (props : List (String × PropDesc)) :
    List EntitySpec :=
  props.flatMap (fun p => mapCircuitPerProp nid p.1 p.2)

/-- One iteration of the `_map_power_flow_properties` loop. -/
def mapPowerFlowPerProp (nid pid : String) (pd : PropDesc) : List EntitySpec :=
  let unit := pd.unit.getD ""
  let name := humanize pid
  if unit = "W" ∨ unit = "kW" ∨ pyContains pid.toList "power".toList then
    [{ platform := .sensor, node_id := nid, property_id := pid,
       name := name, device_class := some .power,
       state_class := some .measurement,
       native_unit := some (if unit = "kW" then "kW" else "W") }]
  else if unit = "Wh" ∨ pyContains pid.toList "energy".toList then
    [{ platform := .sensor, node_id := nid, property_id := pid,
       name := name, device_class := some .energy,
       state_class := some .totalIncreasing, native_unit := some "Wh" }]
  else
    [{ platform := .sensor, node_id := nid, property_id := pid, name := name }]

/-- `_map_power_flow_properties`. -/
def mapPowerFlowProperties (nid : String) (props : List (String × PropDesc)) :
    List EntitySpec :=
  props.flatMap (fun p => mapPowerFlowPerProp nid p.1 p.2)

/-- One iteration of the `_map_lug_properties` loop.  The direction is decided
by `"upstream" in node_id` on the node identifier. -/
def mapLugPerProp (nid pid : String) (pd : PropDesc) : List EntitySpec :=
  let isUpstream := containsUpstream nid
  let direction := if isUpstream then "Upstream" else "Downstream"
  let unit := pd.unit.getD ""
  if pid = "direction" ∨ pid = "feed" then
    [{ platform := .sensor, node_id := nid, property_id := pid,
       name := direction ++ " " ++ humanize pid,
       entity_category := some .diagnostic }]
  else if pid = "imported-energy" then
    -- Upstream imported = total panel energy; downstream imported = circuit-side
    [{ platform := .sensor, node_id := nid, property_id := pid,
       name := if isUpstream then "Energy" else "Downstream Energy",
       device_class := some .energy, state_class := some .totalIncreasing,
       native_unit := some "Wh" }]
  else if pid = "exported-energy" then
    [{ platform := .sensor, node_id := nid, property_id := pid,
       name := if isUpstream then "Energy Returned"
               else "Downstream Energy Returned",
       device_class := some .energy, state_class := some .totalIncreasing,
       native_unit := some "Wh" }]
  else if unit = "W" ∨ unit = "kW" ∨ pyContains pid.toList "power".toList then
    [{ platform := .sensor, node_id := nid, property_id := pid,
       name := if isUpstream then "Power" else "Downstream Power",
       device_class := some .power, state_class := some .measurement,
       native_unit := some (if unit = "kW" then "kW" else "W") }]
  else if unit = "A" then
    [{ platform := .sensor, node_id := nid, property_id := pid,
       name := direction ++ " " ++ humanize pid,
       device_class := some .current, state_class := some .measurement,
       native_unit := some "A" }]
  else []

/-- `_map_lug_properties`. -/
def mapLugProperties (nid : String) (props : List (String × PropDesc)) :
    List EntitySpec :=
  props.flatMap (fun p => mapLugPerProp nid p.1 p.2)

/-- One iteration of the `_map_bess_properties` loop. -/
def mapBessPerProp (nid pid : String) (pd : PropDesc) : List EntitySpec :=
  if pid = "soc" then
    [{ platform := .sensor, node_id := nid, property_id := pid,
       name := "State of Charge", device_class := some .battery,
       state_class := some .measurement, native_unit := some "%" }]
  else if pid = "soe" then
    [{ platform := .sensor, node_id := nid, property_id := pid,
       name := "State of Energy", device_class := some .energyStorage,
       state_class := some .measurement, native_unit := some "kWh" }]
  else if pid = "connected" then
    [{ platform := .binarySensor, node_id := nid, property_id := pid,
       name := "Connected", device_class := some .connectivity }]
  else if pid = "grid-state" then
    [{ platform := .sensor, node_id := nid, property_id := pid,
       name := "Grid State", icon := some "mdi:transmission-tower" }]
  else if pid = "vendor-name" then
    [{ platform := .sensor, node_id := nid, property_id := pid,
       name := "Vendor", entity_category := some .diagnostic }]
  else if pid = "product-name" then
    [{ platform := .sensor, node_id := nid, property_id := pid,
       name := "Product", entity_category := some .diagnostic }]
  else if pid = "model" then
    [{ platform := .sensor, node_id := nid, property_id := pid,
       name := "Model", entity_category := some .diagnostic }]
  else if pid = "serial-number" then
    [{ platform := .sensor, node_id := nid, property_id := pid,
       name := "Serial Number", entity_category := some .diagnostic }]
  else if pid = "software-version" then
    [{ platform := .sensor, node_id := nid, property_id := pid,
       name := "Firmware Version", entity_category := some .diagnostic }]
  else if pid = "relative-position" then
    [{ platform := .sensor, node_id := nid, property_id := pid,
       name := "Relative Position", entity_category := some .diagnostic }]
  else if pid = "feed" then
    [{ platform := .sensor, node_id := nid, property_id := pid,
       name := "Feed Circuit", entity_category := some .diagnostic }]
  else if pid = "nameplate-capacity" then
    let unit := pd.unit.getD "kWh"
    [{ platform := .sensor, node_id := nid, property_id := pid,
       name := "Nameplate Capacity", device_class := some .energyStorage,
       native_unit := some (if unit = "kWh" then "kWh" else "Wh"),
       entity_category := some .diagnostic }]
  else
    let unit := pd.unit.getD ""
    if unit = "W" ∨ unit = "kW" ∨ pyContains pid.toList "power".toList then
      [{ platform := .sensor, node_id := nid, property_id := pid,
         name := humanize pid, device_class := some .power,
         state_class := some .measurement,
         native_unit := some (if unit = "kW" then "kW" else "W") }]
    else []

/-- `_map_bess_properties`. -/
def mapBessProperties (nid : String) (props : List (String × PropDesc)) :
    List EntitySpec :=
  props.flatMap (fun p => mapBessPerProp nid p.1 p.2)

/-- One iteration of the `_map_pv_properties` loop. -/
def mapPvPerProp (nid pid : String) (pd : PropDesc) : List EntitySpec :=
  if pid = "vendor-name" then
    [{ platform := .sensor, node_id := nid, property_id := pid,
       name := "Vendor", entity_category := some .diagnostic }]
  else if pid = "product-name" then
    [{ platform := .sensor, node_id := nid, property_id := pid,
       name := "Product", entity_category := some .diagnostic }]
  else if pid = "serial-number" then
    [{ platform := .sensor, node_id := nid, property_id := pid,
       name := "Serial Number", entity_category := some .diagnostic }]
  else if pid = "software-version" then
    [{ platform := .sensor, node_id := nid, property_id := pid,
       name := "Firmware Version", entity_category := some .diagnostic }]
  else if pid = "relative-position" then
    [{ platform := .sensor, node_id := nid, property_id := pid,
       name := "Relative Position", entity_category := some .diagnostic }]
  else if pid = "feed" then
    [{ platform := .sensor, node_id := nid, property_id := pid,
       name := "Feed Circuit", entity_category := some .diagnostic }]
  else if pid = "nameplate-capacity" then
    let unit := pd.unit.getD "kW"
    [{ platform := .sensor, node_id := nid, property_id := pid,
       name := "Nameplate Capacity", device_class := some .power,
       native_unit := some (if unit = "kW" then "kW" else "W"),
       entity_category := some .diagnostic }]
  else
    let unit := pd.unit.getD ""
    let name := humanize pid
    if unit = "W" ∨ unit = "kW" ∨ pyContains pid.toList "power".toList then
      [{ platform := .sensor, node_id := nid, property_id := pid,
         name := name, device_class := some .power,
         state_class := some .measurement,
         native_unit := some (if unit = "kW" then "kW" else "W") }]
    else if unit = "Wh" ∨ pyContains pid.toList "energy".toList then
      [{ platform := .sensor, node_id := nid, property_id := pid,
         name := name, device_class := some .energy,
         state_class := some .totalIncreasing, native_unit := some "Wh" }]
    else []

/-- `_map_pv_properties`. -/
def mapPvProperties (nid : String) (props : List (String × PropDesc)) :
    List EntitySpec :=
  props.flatMap (fun p => mapPvPerProp nid p.1 p.2)

/-- One iteration of the `_map_evse_properties` loop. -/
def mapEvsePerProp (nid pid : String) (pd : PropDesc) : List EntitySpec :=
  if pid = "status" then
    [{ platform := .sensor, node_id := nid, property_id := pid,
       name := "Status", icon := some "mdi:ev-station" }]
  else if pid = "lock-state" then
    [{ platform := .sensor, node_id := nid, property_id := pid,
       name := "Lock State", icon := some "mdi:lock" }]
  else if pid = "advertised-current" then
    [{ platform := .sensor, node_id := nid, property_id := pid,
       name := "Advertised Current", device_class := some .current,
       state_class := some .measurement, native_unit := some "A" }]
  else if pid = "vendor-name" then
    [{ platform := .sensor, node_id := nid, property_id := pid,
       name := "Vendor", entity_category := some .diagnostic }]
  else if pid = "product-name" then
    [{ platform := .sensor, node_id := nid, property_id := pid,
       name := "Product", entity_category := some .diagnostic }]
  else if pid = "part-number" then
    [{ platform := .sensor, node_id := nid, property_id := pid,
       name := "Part Number", entity_category := some .diagnostic }]
  else if pid = "serial-number" then
    [{ platform := .sensor, node_id := nid, property_id := pid,
       name := "Serial Number", entity_category := some .diagnostic }]
  else if pid = "software-version" then
    [{ platform := .sensor, node_id := nid, property_id := pid,
       name := "Firmware Version", entity_category := some .diagnostic }]
  else if pid = "feed" then
    [{ platform := .sensor, node_id := nid, property_id := pid,
       name := "Feed Circuit", entity_category := some .diagnostic }]
  else
    let unit := pd.unit.getD ""
    if unit = "W" ∨ unit = "kW" ∨ pyContains pid.toList "power".toList then
      [{ platform := .sensor, node_id := nid, property_id := pid,
         name := humanize pid, device_class := some .power,
         state_class := some .measurement,
         native_unit := some (if unit = "kW" then "kW" else "W") }]
    else []

/-- `_map_evse_properties`. -/
def mapEvseProperties (nid : String) (props : List (String × PropDesc)) :
    List EntitySpec :=
  props.flatMap (fun p => mapEvsePerProp nid p.1 p.2)

/-- One iteration of the `_map_pcs_properties` loop. -/
def mapPcsPerProp (nid pid : String) (pd : PropDesc) : List EntitySpec :=
  let datatype := pd.datatype.getD ""
  let unit := pd.unit.getD ""
  let name := humanize pid
  if datatype = "boolean" then
    [{ platform := .binarySensor, node_id := nid, property_id := pid,
       name := name, entity_category := some .diagnostic }]
  else if unit = "A" then
    [{ platform := .sensor, node_id := nid, property_id := pid,
       name := name, device_class := some .current,
       state_class := some .measurement, native_unit := some "A",
       entity_category := some .diagnostic }]
  else if datatype = "enum" then
    [{ platform := .sensor, node_id := nid, property_id := pid,
       name := name, entity_category := some .diagnostic }]
  else []

/-- `_map_pcs_properties`. -/
def mapPcsProperties (nid : String) (props : List (String × PropDesc)) :
    List EntitySpec :=
  props.flatMap (fun p => mapPcsPerProp nid p.1 p.2)

/-! ## Dispatcher (`_NODE_TYPE_MAPPERS`, `entities_from_description`) -/

/-- `_NODE_TYPE_MAPPERS`: Homie node type → mapper function. -/
def lookupMapper (nodeType : String) :
    Option (String → List (String × PropDesc) → List EntitySpec) :=
  if nodeType = "energy.ebus.device.distribution-enclosure.core" then
    some mapCoreProperties
  else if nodeType = "energy.ebus.device.circuit" then
    some mapCircuitProperties
  else if nodeType = "energy.ebus.device.power-flows" then
    some mapPowerFlowProperties
  else if nodeType = "energy.ebus.device.lugs.upstream" then
    some mapLugProperties
  else if nodeType = "energy.ebus.device.lugs.downstream" then
    some mapLugProperties
  else if nodeType = "energy.ebus.device.bess" then
    some mapBessProperties
  else if nodeType = "energy.ebus.device.pv" then
    some mapPvProperties
  else if nodeType = "energy.ebus.device.evse" then
    some mapEvseProperties
  else if nodeType = "energy.ebus.device.pcs" then
    some mapPcsProperties
  else none

/-- `util._SUB_DEVICE_TYPES`. -/
def SUB_DEVICE_TYPES : List String :=
  ["energy.ebus.device.circuit", "energy.ebus.device.bess",
   "energy.ebus.device.pv", "energy.ebus.device.evse",
   "energy.ebus.device.power-flows"]

/-- `util._NODE_TYPE_LABELS`. -/
def nodeTypeLabel (nodeType : String) : Option String :=
  if nodeType = "energy.ebus.device.circuit" then some "Circuit"
  else if nodeType = "energy.ebus.device.bess" then some "Battery Storage"
  else if nodeType = "energy.ebus.device.pv" then some "Solar PV"
  else if nodeType = "energy.ebus.device.evse" then some "EV Charger"
  else if nodeType = "energy.ebus.device.power-flows" then some "Site Metering"
  else none

/-- Sub-device stamping pass of `entities_from_description`: for sub-device
node types every produced spec gets `node_type` and a resolved `device_name`.
`circuit_name or f"Circuit {node_id[:6]}"` treats the empty string as falsy. -/
def stampSpecs (panel : Option Panel) (nodeId nodeType : String)
    (specs : List EntitySpec) : List EntitySpec :=
  if nodeType ∈ SUB_DEVICE_TYPES then
    let devName :=
      if nodeType = "energy.ebus.device.circuit" then
        let circuitName :=
          match panel with
          | none => none
          | some p => p.getPropertyValue nodeId "name"
        match circuitName with
        | some n => if n = "" then "Circuit " ++ pyTake 6 nodeId else n
        | none => "Circuit " ++ pyTake 6 nodeId
      else
        let typeLabel := (nodeTypeLabel nodeType).getD (humanize nodeId)
        match panel with
        | some p => shortSerialSuffix p.serialNumber ++ " " ++ typeLabel
        | none => typeLabel
    specs.map (fun s => { s with node_type := nodeType, device_name := devName })
  else specs

/-- The body of the node loop in `entities_from_description`: a node with no
properties is skipped, a node whose type has no mapper is skipped, otherwise
the mapper output is stamped and contributed. -/
def nodeSpecs (panel : Option Panel) (entry : String × NodeDesc) :
    List EntitySpec :=
  let nodeId := entry.1
  let nodeDesc := entry.2
  if nodeDesc.properties = [] then []
  else
    match lookupMapper nodeDesc.type with
    | none => []
    | some mapper =>
        stampSpecs panel nodeId nodeDesc.type (mapper nodeId nodeDesc.properties)

/-- `entities_from_description`: iterate nodes in document order, concatenate
each node's contribution. -/
def entitiesFromDescription (description : Description)
    (panel : Option Panel) : List EntitySpec :=
  description.nodes.flatMap (nodeSpecs panel)

/-! ## Timeout constants (`const.py`) -/

/-- `DESCRIPTION_TIMEOUT = 30` — seconds to wait for the MQTT `$description`. -/
def DESCRIPTION_TIMEOUT : Nat := 30

/-- `DEVICE_READY_TIMEOUT = 120` — seconds to wait for the device "ready" state. -/
def DEVICE_READY_TIMEOUT : Nat := 120

/-- `CIRCUIT_NAMES_TIMEOUT = 10` — seconds to wait for circuit name properties. -/
def CIRCUIT_NAMES_TIMEOUT : Nat := 10

/-- `API_TIMEOUT = 15` — seconds for REST API calls. -/
def API_TIMEOUT : Nat := 15

/-! ## Value formatter (`sensor.SpanEbusSensor._update_from_value`)

Raw wire values are strings; numeric parsing is embedded as an exact-rational
decimal parser covering Python `float()` on plain decimal literals (optional
sign, digits, one optional decimal point); every other string fails to parse,
matching the `except (ValueError, TypeError)` arm for non-numeric input. -/

def allDigits (cs : List Char) : Bool :=
  cs.all (fun c => c.isDigit)

def natOfDigits (cs : List Char) : Nat :=
  cs.foldl (fun a c => a * 10 + (c.toNat - 48)) 0

/-- An exact scaled decimal `mant / 10 ^ scale`, the value a decimal wire
literal denotes.  Negation (the only arithmetic `_update_from_value`
performs, and exact in IEEE as well) negates the mantissa. -/
structure DecNum where
  mant : Int
  scale : Nat
  deriving DecidableEq, Repr

/-- The rational a `DecNum` denotes. -/
def DecNum.toRat (d : DecNum) : ℚ :=
  (d.mant : ℚ) / (10 : ℚ) ^ d.scale

/-- Exact negation of a decimal value. -/
def DecNum.neg (d : DecNum) : DecNum :=
  ⟨-d.mant, d.scale⟩

/-- Parse an unsigned decimal literal. -/
def parseFloatCore (cs : List Char) : Option DecNum :=
  let intPart := cs.takeWhile (fun c => c ≠ '.')
  let rest := cs.dropWhile (fun c => c ≠ '.')
  match rest with
  | [] =>
      if intPart ≠ [] ∧ allDigits intPart then
        some ⟨natOfDigits intPart, 0⟩
      else none
  | _ :: fracPart =>
      if allDigits intPart ∧ allDigits fracPart ∧ (intPart ≠ [] ∨ fracPart ≠ []) then
        some ⟨natOfDigits intPart * 10 ^ fracPart.length + natOfDigits fracPart,
          fracPart.length⟩
      else none

/-- Python `float(value)` on plain decimal literals (whitespace-stripped,
optional sign, at most one decimal point); any other string fails, matching
the `except (ValueError, TypeError)` arm. -/
def parseFloat (s : String) : Option DecNum :=
  match stripChars s.toList with
  | '-' :: t => (parseFloatCore t).map DecNum.neg
  | '+' :: t => parseFloatCore t
  | t => parseFloatCore t

/-- A sensor's `_attr_native_value`: a parsed number or a pass-through string. -/
inductive NativeValue
  | num (q : DecNum)
  | str (s : String)
  deriving DecidableEq, Repr

/-- The mutable attributes `_update_from_value` writes. -/
structure SensorState where
  nativeValue : Option NativeValue := none
  extraAttrs : List (String × String) := []
  deriving DecidableEq, Repr

/-- `SpanEbusSensor._NUMERIC_DEVICE_CLASSES`. -/
def NUMERIC_DEVICE_CLASSES : List DeviceClass :=
  [.power, .energy, .battery, .current, .voltage, .energyStorage]

/-- `self.device_class in self._NUMERIC_DEVICE_CLASSES` (None is never in). -/
def isNumericClass (dc : Option DeviceClass) : Bool :=
  match dc with
  | some c => NUMERIC_DEVICE_CLASSES.contains c
  | none => false

/-- `SpanEbusSensor._update_from_value`, embedded as a state transformer.

The second component collects the diagnostic warnings the call logs; the
source function contains no logger call, so it is always empty — in
particular there is no high-water mark, no suppression of decreasing
TOTAL_INCREASING counter values and no suppression warning, although the
repository's own tests (`test_sensor.py`) require all three. -/
def sensorUpdateFromValue (lookup : String → String → Option String)
    (spec : EntitySpec) (st : SensorState) (value : String) :
    SensorState × List String :=
  if isNumericClass spec.device_class then
    match parseFloat value with
    | some q =>
        ({ st with nativeValue := some (.num (if spec.negate then q.neg else q)) },
         [])
    | none => ({ st with nativeValue := none }, [])
  else if spec.property_id = "feed" then
    -- Feed values are circuit node id references, resolved to the circuit
    -- name; `if name:` is falsy for both None and the empty string.
    match lookup value "name" with
    | some n =>
        if n = "" then ({ st with nativeValue := some (.str value) }, [])
        else
          ({ st with nativeValue := some (.str n), extraAttrs := [("circuit_id", value)] }, [])
    | none => ({ st with nativeValue := some (.str value) }, [])
  else ({ st with nativeValue := some (.str value) }, [])

/-- Feed a sequence of raw values through `_update_from_value`, collecting the
displayed value after each step and all warnings logged along the way. -/
def runSensorSequence (lookup : String → String → Option String)
    (spec : EntitySpec) :
    SensorState → List String → List (Option NativeValue) × List String
  | _, [] => ([], [])
  | st, v :: rest =>
      let r := sensorUpdateFromValue lookup spec st v
      let rr := runSensorSequence lookup spec r.1 rest
      (r.1.nativeValue :: rr.1, r.2 ++ rr.2)

/-! ## Synchronization bridge subscriber registry (`span_panel.SpanPanel`)

The per-(node,property) callback dict is modelled as a function from keys to
lists of callback identities.  `register_property_callback` appends
(`setdefault(key, []).append(cb)`); the returned unregister closure removes
the first occurrence if present (`cbs.remove(cb)`, guarded); dispatch only
reads the lists. -/

/-- Callback identities. -/
abbrev CbId := Nat

/-- The operations the claim quantifies over. -/
inductive PanelOp
  | reg (node prop : String) (cb : CbId)
  | unreg (node prop : String) (cb : CbId)
  | dispatch (node prop value : String)
  deriving DecidableEq, Repr

/-- Effect of one operation on the `_property_callbacks` registry. -/
def applyOp (s : String × String → List CbId) :
    PanelOp → (String × String → List CbId)
  | .reg n p cb => fun k => if k = (n, p) then s k ++ [cb] else s k
  | .unreg n p cb => fun k => if k = (n, p) then (s k).erase cb else s k
  | .dispatch _ _ _ => s

/-- Run a sequence of operations from the freshly-constructed (empty) registry. -/
def runOps (ops : List PanelOp) : String × String → List CbId :=
  ops.foldl applyOp (fun _ => [])

/-- The registration history for one key: every callback identity passed to
`register_property_callback` under that key, in order. -/
def regHistory (ops : List PanelOp) (k : String × String) : List CbId :=
  ops.filterMap (fun op =>
    match op with
    | .reg n p cb => if (n, p) = k then some cb else none
    | _ => none)

/-! ## Dispatch error isolation (`SpanPanel._dispatch_property_update`)

Callbacks may raise; a raising callback is modelled as a function into
`Except`.  The loop body `try: cb(value) except Exception: log` is embedded
with `tryCatch` in the `Except` monad, so an uncaught exception would abort
the remaining iterations — the theorem shows the catch prevents that. -/

/-- The loop of `_dispatch_property_update`: call every callback in order,
catching and logging (`some errMsg`) any exception a callback raises. -/
def dispatchPropertyUpdate (value : String) :
    List (String → Except String Unit) → Except String (List (Option String))
  | [] => pure []
  | cb :: rest => do
      let r ← tryCatch (do _ ← cb value; pure (none : Option String))
        (fun e => pure (some e))
      let rs ← dispatchPropertyUpdate value rest
      pure (r :: rs)

/-- The logged outcome of one callback invocation. -/
def callbackOutcome (res : Except String Unit) : Option String :=
  match res with
  | .ok _ => none
  | .error e => some e

/-! ## Circuit-name readiness wait (`__init__._wait_for_circuit_names`)

The coroutine is embedded as a function of: the value lookup at the initial
absence check (`getValue0`), the value lookup at the post-registration
re-check (`getValue1`, closing the race), and which node's temporary `name`
callback fired before the timeout (`delivered`).  The outcome records the
boolean result together with the node ids for which a temporary subscriber
was registered and the ids unregistered by the `finally` block on return. -/

structure WaitOutcome where
  success : Bool
  registered : List String
  unregistered : List String
  deriving DecidableEq, Repr

/-- `_wait_for_circuit_names`. -/
def waitForCircuitNames (getValue0 getValue1 : String → Option String)
    (circuitNodeIds : List String) (delivered : String → Bool) : WaitOutcome :=
  let missing := circuitNodeIds.filter (fun nid => (getValue0 nid).isNone)
  if missing = [] then ⟨true, [], []⟩
  else
    -- an event is set either by the re-check after registration or by the
    -- temporary callback firing before the timeout; `asyncio.gather` of all
    -- event waits succeeds within the timeout iff every event is set
    let eventFired := fun nid => delivered nid || (getValue1 nid).isSome
    ⟨missing.all eventFired, missing, missing⟩

/-! ## Helper lemmas -/

theorem splitOnChar_ne_nil (sep : Char) (cs : List Char) :
    splitOnChar sep cs ≠ [] := by
  induction cs with
  | nil => simp [splitOnChar]
  | cons c t ih =>
      simp only [splitOnChar]
      split
      · simp
      · cases h : splitOnChar sep t with
        | nil => exact absurd h ih
        | cons a b => simp

theorem mem_of_mem_splitOnChar (sep : Char) :
    ∀ (cs piece : List Char), piece ∈ splitOnChar sep cs →
      ∀ c ∈ piece, c ∈ cs ∧ c ≠ sep := by
  intro cs
  induction cs with
  | nil =>
      intro piece hp c hc
      simp only [splitOnChar, List.mem_singleton] at hp
      subst hp
      simp at hc
  | cons a t ih =>
      intro piece hp c hc
      simp only [splitOnChar] at hp
      by_cases ha : a = sep
      · rw [if_pos ha] at hp
        rcases List.mem_cons.mp hp with h | h
        · subst h; simp at hc
        · have h2 := ih piece h c hc
          exact ⟨List.mem_cons_of_mem _ h2.1, h2.2⟩
      · rw [if_neg ha] at hp
        cases hr : splitOnChar sep t with
        | nil => exact absurd hr (splitOnChar_ne_nil sep t)
        | cons hd tl =>
            rw [hr] at hp
            rcases List.mem_cons.mp hp with h | h
            · subst h
              rcases List.mem_cons.mp hc with h2 | h2
              · subst h2; exact ⟨List.mem_cons_self _ _, ha⟩
              · have hhd : hd ∈ splitOnChar sep t := by
                  rw [hr]; exact List.mem_cons_self _ _
                have h3 := ih hd hhd c h2
                exact ⟨List.mem_cons_of_mem _ h3.1, h3.2⟩
            · have hpc : piece ∈ splitOnChar sep t := by
                rw [hr]; exact List.mem_cons_of_mem _ h
              have h3 := ih piece hpc c hc
              exact ⟨List.mem_cons_of_mem _ h3.1, h3.2⟩

theorem stripChars_eq_nil (cs : List Char) (h : ∀ c ∈ cs, isWs c = true) :
    stripChars cs = [] := by
  have h1 : cs.dropWhile isWs = [] := by
    rw [List.dropWhile_eq_nil_iff]
    exact h
  simp [stripChars, h1]

/-! ## Claims -/

/-- C3 (counterexample): the claimed strict ordering
`DESCRIPTION_TIMEOUT < CIRCUIT_NAMES_TIMEOUT < API_TIMEOUT < DEVICE_READY_TIMEOUT`
fails: `DESCRIPTION_TIMEOUT = 30` is not below `CIRCUIT_NAMES_TIMEOUT = 10`. -/
theorem timeout_ordering_counterexample :
    ¬ (DESCRIPTION_TIMEOUT < CIRCUIT_NAMES_TIMEOUT ∧
       CIRCUIT_NAMES_TIMEOUT < API_TIMEOUT ∧
       API_TIMEOUT < DEVICE_READY_TIMEOUT) := by
  decide

/-- C3 (amended): the configured timeout constants satisfy the strict ordering
name-completion-wait < API-call timeout < schema-wait < device-ready-wait,
i.e. `CIRCUIT_NAMES_TIMEOUT < API_TIMEOUT < DESCRIPTION_TIMEOUT <
DEVICE_READY_TIMEOUT` (10 < 15 < 30 < 120). -/
theorem timeout_ordering :
    CIRCUIT_NAMES_TIMEOUT < API_TIMEOUT ∧
    API_TIMEOUT < DESCRIPTION_TIMEOUT ∧
    DESCRIPTION_TIMEOUT < DEVICE_READY_TIMEOUT := by
  decide

/-- C10: enumerated-format parsing strips tokens and drops the ones that are
blank after stripping: `"A,,B"` and `"A, ,B"` both yield `["A", "B"]`, a format
made only of commas and whitespace yields `[]`, and no parsed option list ever
contains the empty string. -/
theorem parse_enum_format_drops_blank_tokens :
    parseEnumFormat "A,,B" = ["A", "B"] ∧
    parseEnumFormat "A, ,B" = ["A", "B"] ∧
    parseEnumFormat " A ,B " = ["A", "B"] ∧
    (∀ fmt : String,
      fmt.toList.all (fun c => c = ',' || isWs c) = true →
      parseEnumFormat fmt = []) ∧
    (∀ (fmt s : String), s ∈ parseEnumFormat fmt → s ≠ "") := by
  refine ⟨by decide, by decide, by decide, ?_, ?_⟩
  · intro fmt hall
    by_cases hfmt : fmt = ""
    · simp [parseEnumFormat, hfmt]
    · rw [parseEnumFormat, if_neg hfmt, List.filterMap_eq_nil_iff]
      intro piece hpiece
      have hws : ∀ c ∈ piece, isWs c = true := by
        intro c hc
        have h2 := mem_of_mem_splitOnChar ',' fmt.toList piece hpiece c hc
        have h3 := List.all_eq_true.mp hall c h2.1
        simp only [Bool.or_eq_true, decide_eq_true_eq] at h3
        rcases h3 with h3 | h3
        · exact absurd h3 h2.2
        · exact h3
      have hnil : stripChars piece = [] := stripChars_eq_nil piece hws
      simp [hnil]
  · intro fmt s hs
    rw [parseEnumFormat] at hs
    split at hs
    · simp at hs
    · rcases List.mem_filterMap.mp hs with ⟨piece, _, hf⟩
      simp only at hf
      split at hf
      · exact absurd hf (by simp)
      · rename_i hne
        have hs2 : String.mk (stripChars piece) = s := Option.some.inj hf
        subst hs2
        intro habs
        have hdata : stripChars piece = [] := congrArg String.data habs
        rw [hdata] at hne
        simp at hne

/-- C10 (witness): a comma/whitespace-only format yields `[]`, and the token
"A" kept from `"A,,B"` is indeed non-blank. -/
theorem parse_enum_format_drops_blank_tokens_witness :
    parseEnumFormat ",, , " = [] ∧ "A" ≠ "" :=
  ⟨parse_enum_format_drops_blank_tokens.2.2.2.1 ",, , " (by decide),
   parse_enum_format_drops_blank_tokens.2.2.2.2 "A,,B" "A" (by decide)⟩

/-- C1 (code evaluated at the failing input): feeding the raw sequence
`["1000.0", "950.0", "940.0", "1000.0", "1050.0"]` to `_update_from_value` on
a TOTAL_INCREASING energy sensor displays `[1000.0, 950.0, 940.0, 1000.0,
1050.0]` — the decreases at 950.0 and 940.0 are adopted, not held at the
1000.0 high-water mark — and no diagnostic warning is ever emitted, because
the source function has no suppression logic at all, although the
repository's own tests (`test_sensor.py`,
`test_energy_sensor_suppresses_decrease` /
`test_energy_sensor_suppression_warning_logged`) require exactly the
behaviour the claim describes. -/
theorem counter_decrease_not_suppressed_in_code :
    runSensorSequence (fun _ _ => none)
      { platform := .sensor, node_id := "circuit-1",
        property_id := "exported-energy", name := "Energy",
        device_class := some .energy, state_class := some .totalIncreasing,
        native_unit := some "Wh" } {}
      ["1000.0", "950.0", "940.0", "1000.0", "1050.0"] =
      ([some (.num ⟨10000, 1⟩), some (.num ⟨9500, 1⟩), some (.num ⟨9400, 1⟩),
        some (.num ⟨10000, 1⟩), some (.num ⟨10500, 1⟩)], []) ∧
    (DecNum.toRat ⟨9500, 1⟩ = 950 ∧ DecNum.toRat ⟨9400, 1⟩ = 940) ∧
    (950 : ℚ) ≠ 1000 := by
  refine ⟨by decide, ⟨?_, ?_⟩, by norm_num⟩
  · rw [DecNum.toRat]; norm_num
  · rw [DecNum.toRat]; norm_num

/-- C2 (counterexample): an upstream lug node's "exported-energy" property is
mapped to display name "Energy Returned", not "Energy" as claimed. -/
theorem upstream_lug_energy_name_counterexample :
    (mapLugProperties "upstream-lug"
        [("exported-energy", { unit := some "Wh" })]).map EntitySpec.name =
      ["Energy Returned"] ∧
    ¬ ∀ spec ∈ mapLugProperties "upstream-lug"
        [("exported-energy", { unit := some "Wh" })],
        spec.name = "Energy" := by
  decide

/-- C2 (amended): for every lug node (a lug counts as upstream when its node
id contains the substring "upstream"), the energy naming is the reverse of a
circuit node's: an upstream lug's "imported-energy" property maps to display
name "Energy" and its "exported-energy" to "Energy Returned"; a downstream
lug's "imported-energy" maps to "Downstream Energy" and its "exported-energy"
to "Downstream Energy Returned". -/
theorem lug_energy_direction_names (nid : String) (pd : PropDesc) :
    (mapLugPerProp nid "imported-energy" pd).map EntitySpec.name =
      [if containsUpstream nid then "Energy" else "Downstream Energy"] ∧
    (mapLugPerProp nid "exported-energy" pd).map EntitySpec.name =
      [if containsUpstream nid then "Energy Returned"
       else "Downstream Energy Returned"] := by
  constructor <;> simp [mapLugPerProp]

/-- C4: a circuit node's "active-power" property always maps to exactly one
descriptor, with native unit watts (whatever unit the schema declares, `pd` is
arbitrary) and the negate flag set, and for every raw wire value that parses
as a number the displayed value of that descriptor is the exact negation of
the parsed value. -/
theorem circuit_active_power_watts_negated (nid : String) (pd : PropDesc)
    (lookup : String → String → Option String) (st : SensorState)
    (v : String) (d : DecNum) (hparse : parseFloat v = some d) :
    (mapCircuitPerProp nid "active-power" pd).map
      (fun s => (s.native_unit, s.negate)) = [(some "W", true)] ∧
    ∀ spec ∈ mapCircuitPerProp nid "active-power" pd,
      (sensorUpdateFromValue lookup spec st v).1.nativeValue =
        some (.num d.neg) := by
  constructor
  · simp [mapCircuitPerProp]
  · intro spec hmem
    simp [mapCircuitPerProp] at hmem
    subst hmem
    rw [sensorUpdateFromValue]
    simp [isNumericClass, NUMERIC_DEVICE_CLASSES, hparse]

/-- C4 (witness): a circuit "active-power" declared in kilowatts still yields
the watt unit with negation, and the wire value "-542.3" displays as the
decimal 542.3 (mantissa 5423, scale 1). -/
theorem circuit_active_power_watts_negated_witness :
    (mapCircuitPerProp "c" "active-power" { unit := some "kW" }).map
      (fun s => (s.native_unit, s.negate)) = [(some "W", true)] ∧
    ∀ spec ∈ mapCircuitPerProp "c" "active-power" { unit := some "kW" },
      (sensorUpdateFromValue (fun _ _ => none) spec {} "-542.3").1.nativeValue =
        some (.num ⟨5423, 1⟩) := by
  have h := circuit_active_power_watts_negated "c" { unit := some "kW" }
    (fun _ _ => none) {} "-542.3" ⟨-5423, 1⟩ (by decide)
  simpa [DecNum.neg] using h

/-- C5: the circuit-names readiness wait returns true immediately (registering
nothing) when no name is missing; returns true when every missing name is
delivered via its temporary callback before the timeout; returns false when
some name is neither re-checked present nor delivered by the timeout; and in
every case the temporary subscribers unregistered on return are exactly the
ones registered. -/
theorem wait_for_circuit_names_spec (g0 g1 : String → Option String)
    (ids : List String) (delivered : String → Bool) :
    ((∀ nid ∈ ids, (g0 nid).isSome = true) →
      waitForCircuitNames g0 g1 ids delivered = ⟨true, [], []⟩) ∧
    ((∀ nid ∈ ids, (g0 nid).isNone = true → delivered nid = true) →
      (waitForCircuitNames g0 g1 ids delivered).success = true) ∧
    ((∃ nid ∈ ids, (g0 nid).isNone = true ∧ (g1 nid).isNone = true ∧
        delivered nid = false) →
      (waitForCircuitNames g0 g1 ids delivered).success = false) ∧
    ((waitForCircuitNames g0 g1 ids delivered).unregistered =
      (waitForCircuitNames g0 g1 ids delivered).registered) := by
  refine ⟨?_, ?_, ?_, ?_⟩
  · intro h
    rw [waitForCircuitNames]
    have hnil : ids.filter (fun nid => (g0 nid).isNone) = [] := by
      rw [List.filter_eq_nil_iff]
      intro a ha
      have h2 := h a ha
      cases hg : g0 a with
      | none => rw [hg] at h2; simp at h2
      | some x => simp [hg]
    rw [hnil]
    simp
  · intro h
    rw [waitForCircuitNames]
    by_cases hm : ids.filter (fun nid => (g0 nid).isNone) = []
    · rw [if_pos hm]
    · rw [if_neg hm]
      simp only [List.all_eq_true]
      intro nid hnid
      have h2 := List.mem_filter.mp hnid
      have h3 := h nid h2.1 h2.2
      simp [h3]
  · rintro ⟨nid, hin, hg0, hg1, hdel⟩
    rw [waitForCircuitNames]
    have hmem : nid ∈ ids.filter (fun nid => (g0 nid).isNone) :=
      List.mem_filter.mpr ⟨hin, hg0⟩
    rw [if_neg (by intro hemp; rw [hemp] at hmem; simp at hmem)]
    simp only []
    cases hall : (ids.filter (fun nid => (g0 nid).isNone)).all
        (fun nid => delivered nid || (g1 nid).isSome) with
    | false => rfl
    | true =>
        exfalso
        have h2 := List.all_eq_true.mp hall nid hmem
        rw [hdel] at h2
        simp only [Bool.false_or] at h2
        rw [Option.isNone_iff_eq_none] at hg1
        rw [hg1] at h2
        simp at h2
  · rw [waitForCircuitNames]
    split <;> rfl

/-- C5 (witness): with ids `["a", "b"]` — no missing names resolves
`⟨true, [], []⟩`; all-delivered resolves true; one undelivered and unseen name
resolves false; and unregistered always equals registered. -/
theorem wait_for_circuit_names_spec_witness :
    waitForCircuitNames (fun _ => some "x") (fun _ => none) ["a", "b"]
      (fun _ => false) = ⟨true, [], []⟩ ∧
    (waitForCircuitNames (fun _ => none) (fun _ => none) ["a", "b"]
      (fun _ => true)).success = true ∧
    (waitForCircuitNames (fun _ => none) (fun _ => none) ["a", "b"]
      (fun _ => false)).success = false ∧
    (waitForCircuitNames (fun _ => none) (fun _ => none) ["a", "b"]
      (fun _ => false)).unregistered =
      (waitForCircuitNames (fun _ => none) (fun _ => none) ["a", "b"]
      (fun _ => false)).registered :=
  ⟨(wait_for_circuit_names_spec (fun _ => some "x") (fun _ => none) ["a", "b"]
      (fun _ => false)).1 (by decide),
   (wait_for_circuit_names_spec (fun _ => none) (fun _ => none) ["a", "b"]
      (fun _ => true)).2.1 (by decide),
   (wait_for_circuit_names_spec (fun _ => none) (fun _ => none) ["a", "b"]
      (fun _ => false)).2.2.1 ⟨"a", by decide, by decide, by decide, by decide⟩,
   (wait_for_circuit_names_spec (fun _ => none) (fun _ => none) ["a", "b"]
      (fun _ => false)).2.2.2⟩

/-- The registrations a single operation contributes to a key's history. -/
def opRegs (op : PanelOp) (k : String × String) : List CbId :=
  match op with
  | .reg n p cb => if (n, p) = k then [cb] else []
  | _ => []

/-- `regHistory` distributes over a leading operation. -/
theorem regHistory_cons (op : PanelOp) (ops : List PanelOp)
    (k : String × String) :
    regHistory (op :: ops) k = opRegs op k ++ regHistory ops k := by
  cases op with
  | reg n p cb =>
      simp only [regHistory, opRegs, List.filterMap_cons]
      split <;> simp_all
  | unreg n p cb => simp [regHistory, opRegs, List.filterMap_cons]
  | dispatch n p v => simp [regHistory, opRegs, List.filterMap_cons]

/-- Every reachable callback registry is keywise a sublist of the
corresponding registration history (auxiliary induction). -/
theorem runOps_sublist_aux (ops : List PanelOp) :
    ∀ (s h : String × String → List CbId), (∀ k, List.Sublist (s k) (h k)) →
      ∀ k, List.Sublist (ops.foldl applyOp s k) (h k ++ regHistory ops k) := by
  induction ops with
  | nil =>
      intro s h hsub k
      simpa [regHistory] using hsub k
  | cons op rest ih =>
      intro s h hsub k
      have hstep : ∀ k, List.Sublist (applyOp s op k) (h k ++ opRegs op k) := by
        intro k2
        cases op with
        | reg n p cb =>
            simp only [applyOp, opRegs]
            by_cases hk : k2 = (n, p)
            · rw [if_pos hk, if_pos (by rw [hk])]
              exact (hsub k2).append (List.Sublist.refl [cb])
            · rw [if_neg hk, if_neg (by intro hh; exact hk hh.symm)]
              simpa using hsub k2
        | unreg n p cb =>
            simp only [applyOp, opRegs]
            by_cases hk : k2 = (n, p)
            · rw [if_pos hk]
              simpa using ((s k2).erase_sublist cb).trans (hsub k2)
            · rw [if_neg hk]
              simpa using hsub k2
        | dispatch n p v =>
            simpa [applyOp, opRegs] using hsub k2
      have hrec := ih (applyOp s op) (fun k2 => h k2 ++ opRegs op k2) hstep k
      rw [List.foldl_cons]
      rw [regHistory_cons, ← List.append_assoc]
      exact hrec

/-- C7 (counterexample): registering the same callback identity twice under
the same (node, property) key yields two entries, so a callback identity is
not held at most once. -/
theorem duplicate_callback_registration_counterexample :
    runOps [.reg "node" "prop" 7, .reg "node" "prop" 7] ("node", "prop") =
      [7, 7] ∧
    ¬ (runOps [.reg "node" "prop" 7, .reg "node" "prop" 7]
        ("node", "prop")).count 7 ≤ 1 := by
  decide

/-- C7 (amended): for every state of the bridge reachable by any sequence of
register / unregister / dispatch operations, each per-(node,property)
subscriber list is an order-preserving sublist of the registration history
for that key — insertion order is preserved and entries only arise from
registrations — but the same callback identity may occur more than once
(registering twice appends twice). -/
theorem subscriber_list_insertion_order (ops : List PanelOp)
    (k : String × String) :
    List.Sublist (runOps ops k) (regHistory ops k) := by
  have h := runOps_sublist_aux ops (fun _ => [])
    (fun _ => []) (fun _ => List.Sublist.refl []) k
  simpa [runOps] using h

/-- C8: the dispatch loop wraps every callback invocation in a per-callback
catch, so for all callback lists and values it returns normally (never
propagating an exception) with one logged outcome per callback in order —
delivery to later callbacks is unaffected by an earlier callback raising. -/
theorem dispatch_isolates_callback_errors (value : String)
    (cbs : List (String → Except String Unit)) :
    dispatchPropertyUpdate value cbs =
      Except.ok (cbs.map (fun cb => callbackOutcome (cb value))) := by
  induction cbs with
  | nil => rfl
  | cons cb rest ih =>
      simp only [dispatchPropertyUpdate, List.map_cons]
      cases hc : cb value with
      | ok u =>
          cases u
          simp [tryCatch, tryCatchThe, MonadExceptOf.tryCatch, ih,
            callbackOutcome, hc, Except.tryCatch, bind, Except.bind, pure,
            Except.pure]
      | error e =>
          simp [tryCatch, tryCatchThe, MonadExceptOf.tryCatch, ih,
            callbackOutcome, hc, Except.tryCatch, bind, Except.bind, pure,
            Except.pure]

/-! ## Shape lemmas: every produced spec points at a schema (node, property) -/

/-- Lifting a per-property shape fact through the property-loop flat map. -/
theorem flatMap_perProp_shape
    (per : String → String → PropDesc → List EntitySpec)
    (hper : ∀ nid pid pd s, s ∈ per nid pid pd →
      s.node_id = nid ∧ s.property_id = pid)
    (nid : String) (props : List (String × PropDesc)) (s : EntitySpec)
    (hs : s ∈ props.flatMap (fun p => per nid p.1 p.2)) :
    s.node_id = nid ∧ s.property_id ∈ props.map Prod.fst := by
  rcases List.mem_flatMap.mp hs with ⟨p, hp, hmem⟩
  have h2 := hper nid p.1 p.2 s hmem
  refine ⟨h2.1, ?_⟩
  rw [h2.2]
  exact List.mem_map.mpr ⟨p, hp, rfl⟩

/-- Membership in an if-then-else of lists implies membership in a branch. -/
theorem mem_ite_list {α : Type} {c : Prop} [Decidable c]
    {l1 l2 : List α} {x : α} (h : x ∈ if c then l1 else l2) :
    x ∈ l1 ∨ x ∈ l2 := by
  by_cases hc : c
  · rw [if_pos hc] at h; exact Or.inl h
  · rw [if_neg hc] at h; exact Or.inr h

theorem mapCorePerProp_shape (nid pid : String) (pd : PropDesc)
    (s : EntitySpec) (hs : s ∈ mapCorePerProp nid pid pd) :
    s.node_id = nid ∧ s.property_id = pid := by
  simp only [mapCorePerProp] at hs
  repeat'
    first
      | (rw [List.mem_singleton] at hs; subst hs; exact ⟨rfl, rfl⟩)
      | exact absurd hs (List.not_mem_nil _)
      | rcases mem_ite_list hs with hs | hs

theorem mapCircuitPerProp_shape (nid pid : String) (pd : PropDesc)
    (s : EntitySpec) (hs : s ∈ mapCircuitPerProp nid pid pd) :
    s.node_id = nid ∧ s.property_id = pid := by
  simp only [mapCircuitPerProp] at hs
  repeat'
    first
      | (rw [List.mem_singleton] at hs; subst hs; exact ⟨rfl, rfl⟩)
      | exact absurd hs (List.not_mem_nil _)
      | rcases mem_ite_list hs with hs | hs

theorem mapPowerFlowPerProp_shape (nid pid : String) (pd : PropDesc)
    (s : EntitySpec) (hs : s ∈ mapPowerFlowPerProp nid pid pd) :
    s.node_id = nid ∧ s.property_id = pid := by
  simp only [mapPowerFlowPerProp] at hs
  repeat'
    first
      | (rw [List.mem_singleton] at hs; subst hs; exact ⟨rfl, rfl⟩)
      | exact absurd hs (List.not_mem_nil _)
      | rcases mem_ite_list hs with hs | hs

theorem mapLugPerProp_shape (nid pid : String) (pd : PropDesc)
    (s : EntitySpec) (hs : s ∈ mapLugPerProp nid pid pd) :
    s.node_id = nid ∧ s.property_id = pid := by
  simp only [mapLugPerProp] at hs
  repeat'
    first
      | (rw [List.mem_singleton] at hs; subst hs; exact ⟨rfl, rfl⟩)
      | exact absurd hs (List.not_mem_nil _)
      | rcases mem_ite_list hs with hs | hs

theorem mapBessPerProp_shape (nid pid : String) (pd : PropDesc)
    (s : EntitySpec) (hs : s ∈ mapBessPerProp nid pid pd) :
    s.node_id = nid ∧ s.property_id = pid := by
  simp only [mapBessPerProp] at hs
  repeat'
    first
      | (rw [List.mem_singleton] at hs; subst hs; exact ⟨rfl, rfl⟩)
      | exact absurd hs (List.not_mem_nil _)
      | rcases mem_ite_list hs with hs | hs

theorem mapPvPerProp_shape (nid pid : String) (pd : PropDesc)
    (s : EntitySpec) (hs : s ∈ mapPvPerProp nid pid pd) :
    s.node_id = nid ∧ s.property_id = pid := by
  simp only [mapPvPerProp] at hs
  repeat'
    first
      | (rw [List.mem_singleton] at hs; subst hs; exact ⟨rfl, rfl⟩)
      | exact absurd hs (List.not_mem_nil _)
      | rcases mem_ite_list hs with hs | hs

theorem mapEvsePerProp_shape (nid pid : String) (pd : PropDesc)
    (s : EntitySpec) (hs : s ∈ mapEvsePerProp nid pid pd) :
    s.node_id = nid ∧ s.property_id = pid := by
  simp only [mapEvsePerProp] at hs
  repeat'
    first
      | (rw [List.mem_singleton] at hs; subst hs; exact ⟨rfl, rfl⟩)
      | exact absurd hs (List.not_mem_nil _)
      | rcases mem_ite_list hs with hs | hs

theorem mapPcsPerProp_shape (nid pid : String) (pd : PropDesc)
    (s : EntitySpec) (hs : s ∈ mapPcsPerProp nid pid pd) :
    s.node_id = nid ∧ s.property_id = pid := by
  simp only [mapPcsPerProp] at hs
  repeat'
    first
      | (rw [List.mem_singleton] at hs; subst hs; exact ⟨rfl, rfl⟩)
      | exact absurd hs (List.not_mem_nil _)
      | rcases mem_ite_list hs with hs | hs

/-- Stamping sub-device info never changes which (node, property) a spec
points at. -/
theorem stampSpecs_shape (panel : Option Panel) (nodeId nodeType : String)
    (specs : List EntitySpec) (s : EntitySpec)
    (hs : s ∈ stampSpecs panel nodeId nodeType specs) :
    ∃ s0 ∈ specs, s.node_id = s0.node_id ∧ s.property_id = s0.property_id := by
  rw [stampSpecs.eq_def] at hs
  by_cases hsub : nodeType ∈ SUB_DEVICE_TYPES
  · rw [if_pos hsub] at hs
    rcases List.mem_map.mp hs with ⟨s0, hs0, heq⟩
    exact ⟨s0, hs0, by rw [← heq], by rw [← heq]⟩
  · rw [if_neg hsub] at hs
    exact ⟨s, hs, rfl, rfl⟩

/-- A node's contribution only contains specs for properties the node
declares, and only when its type has a mapper. -/
theorem nodeSpecs_shape (panel : Option Panel) (entry : String × NodeDesc)
    (s : EntitySpec) (hs : s ∈ nodeSpecs panel entry) :
    s.node_id = entry.1 ∧
    s.property_id ∈ entry.2.properties.map Prod.fst ∧
    lookupMapper entry.2.type ≠ none := by
  rw [nodeSpecs] at hs
  split_ifs at hs with hprops
  · simp at hs
  · cases hm : lookupMapper entry.2.type with
    | none => rw [hm] at hs; simp at hs
    | some mapper =>
        rw [hm] at hs
        rcases stampSpecs_shape _ _ _ _ _ hs with ⟨s0, hs0, h1, h2⟩
        have hshape : s0.node_id = entry.1 ∧
            s0.property_id ∈ entry.2.properties.map Prod.fst := by
          rw [lookupMapper] at hm
          split_ifs at hm
          · injection hm with hm
            subst hm
            rw [mapCoreProperties] at hs0
            exact flatMap_perProp_shape _ mapCorePerProp_shape _ _ _ hs0
          · injection hm with hm
            subst hm
            rw [mapCircuitProperties] at hs0
            exact flatMap_perProp_shape _ mapCircuitPerProp_shape _ _ _ hs0
          · injection hm with hm
            subst hm
            rw [mapPowerFlowProperties] at hs0
            exact flatMap_perProp_shape _ mapPowerFlowPerProp_shape _ _ _ hs0
          · injection hm with hm
            subst hm
            rw [mapLugProperties] at hs0
            exact flatMap_perProp_shape _ mapLugPerProp_shape _ _ _ hs0
          · injection hm with hm
            subst hm
            rw [mapLugProperties] at hs0
            exact flatMap_perProp_shape _ mapLugPerProp_shape _ _ _ hs0
          · injection hm with hm
            subst hm
            rw [mapBessProperties] at hs0
            exact flatMap_perProp_shape _ mapBessPerProp_shape _ _ _ hs0
          · injection hm with hm
            subst hm
            rw [mapPvProperties] at hs0
            exact flatMap_perProp_shape _ mapPvPerProp_shape _ _ _ hs0
          · injection hm with hm
            subst hm
            rw [mapEvseProperties] at hs0
            exact flatMap_perProp_shape _ mapEvsePerProp_shape _ _ _ hs0
          · injection hm with hm
            subst hm
            rw [mapPcsProperties] at hs0
            exact flatMap_perProp_shape _ mapPcsPerProp_shape _ _ _ hs0
        refine ⟨h1.trans hshape.1, ?_, by simp [hm]⟩
        rw [h2]
        exact hshape.2

/-- C6: a node whose declared type has no entry in the mapper table
contributes zero descriptors, a node with no properties is skipped entirely
(the mapping is a total function, so no exception arises in either case), and
every produced descriptor points at a (node, property) pair present in the
schema whose node type is recognized by the mapper table. -/
theorem mapping_skips_unknown_nodes (panel : Option Panel)
    (description : Description) :
    (∀ e ∈ description.nodes, lookupMapper e.2.type = none →
      nodeSpecs panel e = []) ∧
    (∀ e ∈ description.nodes, e.2.properties = [] → nodeSpecs panel e = []) ∧
    (∀ s ∈ entitiesFromDescription description panel,
      ∃ e ∈ description.nodes, s.node_id = e.1 ∧
        s.property_id ∈ e.2.properties.map Prod.fst ∧
        lookupMapper e.2.type ≠ none) := by
  refine ⟨?_, ?_, ?_⟩
  · intro e _ hnone
    rw [nodeSpecs]
    split_ifs
    · rfl
    · rw [hnone]
  · intro e _ hprops
    rw [nodeSpecs, if_pos hprops]
  · intro s hs
    rcases List.mem_flatMap.mp hs with ⟨e, he, hmem⟩
    rcases nodeSpecs_shape panel e s hmem with ⟨h1, h2, h3⟩
    exact ⟨e, he, h1, h2, h3⟩

/-- A three-node document (unknown type / no properties / one circuit) used
to witness C6. -/
def c6desc : Description :=
  ⟨[("mystery", { type := "unknown.node.type", properties := [("foo", {})] }),
    ("empty", { type := "energy.ebus.device.circuit", properties := [] }),
    ("circ", { type := "energy.ebus.device.circuit",
               properties := [("active-power", { unit := some "kW" })] })]⟩

/-- The single descriptor `c6desc` maps to (used to witness C6). -/
def c6spec : EntitySpec :=
  { platform := .sensor, node_id := "circ", property_id := "active-power",
    name := "Power", device_class := some .power,
    state_class := some .measurement, native_unit := some "W", negate := true,
    node_type := "energy.ebus.device.circuit", device_name := "Circuit circ" }

/-- C6 (witness): the unknown-type node and the property-less node of
`c6desc` contribute nothing, and the one descriptor produced points at the
circuit node's declared "active-power" property. -/
theorem mapping_skips_unknown_nodes_witness :
    nodeSpecs none ("mystery",
      { type := "unknown.node.type", properties := [("foo", {})] }) = [] ∧
    nodeSpecs none ("empty",
      { type := "energy.ebus.device.circuit", properties := [] }) = [] ∧
    ∃ e ∈ c6desc.nodes, c6spec.node_id = e.1 ∧
      c6spec.property_id ∈ e.2.properties.map Prod.fst ∧
      lookupMapper e.2.type ≠ none :=
  ⟨(mapping_skips_unknown_nodes none c6desc).1
      ("mystery", { type := "unknown.node.type", properties := [("foo", {})] })
      (by decide) rfl,
   (mapping_skips_unknown_nodes none c6desc).2.1
      ("empty", { type := "energy.ebus.device.circuit", properties := [] })
      (by decide) rfl,
   (mapping_skips_unknown_nodes none c6desc).2.2 c6spec (by decide)⟩

/-- C9: the mapping is deterministic — it depends only on the document and on
the observable lookup results: two panels whose `get_property_value` agree
pointwise and whose serial numbers agree produce descriptor lists equal in
content and order for every document. -/
theorem mapping_deterministic (description : Description) (p q : Panel)
    (hv : ∀ n k, p.getPropertyValue n k = q.getPropertyValue n k)
    (hs : p.serialNumber = q.serialNumber) :
    entitiesFromDescription description (some p) =
      entitiesFromDescription description (some q) := by
  obtain ⟨ps, pf⟩ := p
  obtain ⟨qs, qf⟩ := q
  have h1 : ps = qs := hs
  have h2 : pf = qf := funext (fun n => funext (fun k => hv n k))
  subst h1
  subst h2
  rfl

/-- C9 (witness): two syntactically different panels with pointwise-equal
lookups and equal serials map a one-circuit document identically. -/
theorem mapping_deterministic_witness :
    entitiesFromDescription
      ⟨[("circ", { type := "energy.ebus.device.circuit",
                   properties := [("active-power", { unit := some "kW" })] })]⟩
      (some ⟨"SPAN-ABC123",
        fun _ k => if k = "name" then some "Kitchen" else none⟩) =
    entitiesFromDescription
      ⟨[("circ", { type := "energy.ebus.device.circuit",
                   properties := [("active-power", { unit := some "kW" })] })]⟩
      (some ⟨"SPAN-ABC123",
        fun _ k => if "name" = k then some "Kitchen" else none⟩) :=
  mapping_deterministic _ _ _
    (fun n k => by
      show (if k = "name" then some "Kitchen" else none) =
        (if "name" = k then some "Kitchen" else none)
      by_cases h : k = "name"
      · rw [if_pos h, if_pos h.symm]
      · rw [if_neg h, if_neg (fun hh => h hh.symm)])
    rfl

end SpanEbus
